import Mathlib

/-!
Verification of the record-state machine, DNS update client, configuration
loader and interface-event filter of the `ifdyndnsd` daemon, shallowly
embedded from its Rust sources (`src/lib.rs`, `src/main.rs`, `src/dns.rs`,
`src/config.rs`, `src/ifaces.rs`).

Modelling conventions:
- `Instant` is a `Nat` (seconds); `Duration` values are `Nat` seconds.
  Rust's `Instant - Instant` saturates at zero, exactly like `Nat`
  subtraction.
- IPv4 addresses are the 32-bit big-endian `Nat`; IPv6 addresses are the
  eight 16-bit segments, as `Ipv6Addr::segments()` exposes them.
- DNS names (`trust_dns_client::rr::Name`) are label lists; `base_name()`
  drops the first label.
- The effects of a DNS server are captured by an environment of response
  functions, and each operation additionally returns the trace of the
  calls/transactions it issued, in order.
-/

/-- The eight 16-bit segments of an IPv6 address (`std::net::Ipv6Addr`). -/
structure Ipv6Addr where
  s0 : Nat
  s1 : Nat
  s2 : Nat
  s3 : Nat
  s4 : Nat
  s5 : Nat
  s6 : Nat
  s7 : Nat
deriving DecidableEq, Repr

/-- `std::net::IpAddr`: a v4 address as its 32-bit value, or a v6 address. -/
inductive IpAddr where
  | v4 (bits : Nat)
  | v6 (a : Ipv6Addr)
deriving DecidableEq, Repr

/-- The 128-bit value of an IPv6 address (big-endian segment order). -/
def Ipv6Addr.toNat (a : Ipv6Addr) : Nat :=
  ((((((a.s0 * 2 ^ 16 + a.s1) * 2 ^ 16 + a.s2) * 2 ^ 16 + a.s3) * 2 ^ 16
      + a.s4) * 2 ^ 16 + a.s5) * 2 ^ 16 + a.s6) * 2 ^ 16 + a.s7

/-- `cidr::IpCidr`: a network address together with a prefix length. -/
inductive IpCidr where
  | v4 (net : Nat) (len : Nat)
  | v6 (net : Nat) (len : Nat)
deriving DecidableEq, Repr

/-- `IpCidr::contains(&IpAddr)` of the `cidr` crate: the address belongs to
the same family and its leading `len` bits match the network. -/
def IpCidr.contains : IpCidr → IpAddr → Bool
  | .v4 net len, .v4 a => a >>> (32 - len) == net >>> (32 - len)
  | .v6 net len, .v6 a => a.toNat >>> (128 - len) == net >>> (128 - len)
  | _, _ => false

/-- `RETRY_INTERVAL` from `src/lib.rs` (seconds). -/
def RETRY_INTERVAL : Nat := 60

/-- A DNS name as its label list; `trust_dns_client::rr::Name`. -/
abbrev DnsName := List String

/-- `Name::base_name()`: the name with its leftmost label removed. -/
def baseName (n : DnsName) : DnsName := n.drop 1

/-- `trust_dns_client::rr::RecordType`, restricted to what the daemon uses. -/
inductive RecordType where
  | A
  | AAAA
deriving DecidableEq, Repr

/-- The record type the daemon picks for an address (`update_addr`). -/
def recordTypeOf : IpAddr → RecordType
  | .v4 _ => .A
  | .v6 _ => .AAAA

/-- `RecordState` from `src/lib.rs` (the `server` handle is replaced by the
response environment passed to each operation; `Instant`s are `Nat`). -/
structure RecordState where
  name : Option DnsName
  neighbors : List (DnsName × Ipv6Addr)
  addr : Option IpAddr
  ttl : Nat
  zone : Option DnsName
  scope : IpCidr
  dirty : Bool
  update_tried : Option Nat
deriving DecidableEq, Repr

/-- `RecordState::set_address` (src/lib.rs lines 91-106): returns the
`changed?` flag and the updated state. -/
def set_address (st : RecordState) (addr : IpAddr) : Bool × RecordState :=
  if !(st.scope.contains addr) then
    (false, st)
  else if st.addr == some addr then
    (false, st)
  else
    (true, { st with addr := some addr, dirty := true, update_tried := none })

/-- `RecordState::can_update` (src/lib.rs lines 109-122), with the current
instant passed explicitly. -/
def can_update (now : Nat) (st : RecordState) : Bool :=
  if !st.dirty then
    false
  else
    match st.update_tried with
    | none => true
    | some update_tried => decide (update_tried + RETRY_INTERVAL ≤ now)

/-- `RecordState::next_timeout` (src/lib.rs lines 125-133), with the current
instant passed explicitly. -/
def next_timeout (now : Nat) (st : RecordState) : Option Nat :=
  if st.dirty then
    (st.update_tried.map (fun update_tried => update_tried + RETRY_INTERVAL)).orElse
      (fun _ => some now)
  else
    none

/-- A call the record layer makes on the shared `dns::Server` handle. -/
inductive DnsCall where
  | query (name : DnsName) (rt : RecordType)
  | update (name : DnsName) (addr : IpAddr) (zone : Option DnsName) (ttl : Nat)
deriving DecidableEq, Repr

/-- The DNS server's observable behaviour, as response functions: what
`Server::query` and `Server::update` come back with for given arguments. -/
structure DnsEnv where
  queryRes : DnsName → RecordType → Except String (List IpAddr)
  updateRes : DnsName → IpAddr → Option DnsName → Nat → Except String Unit

/-- `RecordState::update_addr` (src/lib.rs lines 174-197): query first; if the
answer is exactly one address equal to `addr`, succeed without an update;
otherwise (other answers or query error) send `server.update` with the
record's `zone` and `ttl`.  Returns the result and the trace of server
calls. -/
def update_addr (env : DnsEnv) (st : RecordState) (name : DnsName) (addr : IpAddr) :
    Except String Unit × List DnsCall :=
  let rt := recordTypeOf addr
  match env.queryRes name rt with
  | .ok addrs =>
    if addrs.length == 1 && addrs.head? == some addr then
      (.ok (), [.query name rt])
    else
      (env.updateRes name addr st.zone st.ttl,
        [.query name rt, .update name addr st.zone st.ttl])
  | .error _ =>
    (env.updateRes name addr st.zone st.ttl,
      [.query name rt, .update name addr st.zone st.ttl])

/-- The neighbor address built inside `RecordState::update` (src/lib.rs lines
153-165): network segments from the current address, host segments from the
configured template. -/
def mkNeighborAddr (cur tmpl : Ipv6Addr) : Ipv6Addr :=
  { s0 := cur.s0, s1 := cur.s1, s2 := cur.s2, s3 := cur.s3,
    s4 := tmpl.s4, s5 := tmpl.s5, s6 := tmpl.s6, s7 := tmpl.s7 }

/-- The neighbor loop of `RecordState::update` (src/lib.rs lines 151-171):
every neighbor gets an `update_addr` with the derived address; errors are only
logged, so just the call trace accumulates. -/
def neighborCalls (env : DnsEnv) (st : RecordState) (cur : Ipv6Addr) : List DnsCall :=
  st.neighbors.flatMap fun nb =>
    (update_addr env st nb.1 (.v6 (mkNeighborAddr cur nb.2))).2

/-- The state mutation `RecordState::update` performs first (src/lib.rs lines
138-139): clear `dirty`, stamp `update_tried`. -/
def postTry (st : RecordState) (now : Nat) : RecordState :=
  { st with dirty := false, update_tried := some now }

/-- `RecordState::update` (src/lib.rs lines 137-172).  `none` is the panic on
a missing address.  On a primary `update_addr` error the record is re-dirtied
and the method returns before any neighbor; otherwise, for an IPv6 address,
all neighbors are attempted and their failures ignored. -/
def RecordState.update (env : DnsEnv) (now : Nat) (st : RecordState) :
    Option (RecordState × List DnsCall) :=
  match st.addr with
  | none => none
  | some addr =>
    let st1 := postTry st now
    match st1.name with
    | some name =>
      match update_addr env st1 name addr with
      | (.error _, calls) => some ({ st1 with dirty := true }, calls)
      | (.ok _, calls) =>
        match addr with
        | .v6 cur => some (st1, calls ++ neighborCalls env st1 cur)
        | .v4 _ => some (st1, calls)
    | none =>
      match addr with
      | .v6 cur => some (st1, neighborCalls env st1 cur)
      | .v4 _ => some (st1, [])

/-- An RFC 2136 transaction sent by `Server::update` (src/dns.rs). -/
inductive Transaction where
  | deleteRrset (name : DnsName) (rt : RecordType) (addr : IpAddr) (zone : DnsName)
  | append (name : DnsName) (rt : RecordType) (addr : IpAddr) (zone : DnsName) (ttl : Nat)
deriving DecidableEq, Repr

/-- `trust_dns_client::op::ResponseCode`, restricted to what matters here. -/
inductive ResponseCode where
  | NoError
  | FormErr
  | ServFail
  | NXDomain
  | NotAuth
  | Refused
deriving DecidableEq, Repr

/-- Display form of a response code, for the error strings of `Server::update`. -/
def ResponseCode.show : ResponseCode → String
  | .NoError => "No Error"
  | .FormErr => "Form Error"
  | .ServFail => "Server Failure"
  | .NXDomain => "Non-Existent Domain"
  | .NotAuth => "Not Authorized"
  | .Refused => "Query Refused"

/-- The server's behaviour during one `Server::update` call: the outcome of
each of the two transactions, a transport error or a response code. -/
structure UpdateEnv where
  deleteResp : Except String ResponseCode
  appendResp : Except String ResponseCode

/-- `Server::update` (src/dns.rs lines 98-131): delete the rrset in `zone`
(or `name.base_name()` when no zone is given), abort on a transport error or
non-NoError code, then append the record with `ttl` and check its code the
same way.  Returns the result and the transactions actually sent. -/
def serverUpdate (env : UpdateEnv) (name : DnsName) (addr : IpAddr)
    (zone : Option DnsName) (ttl : Nat) : Except String Unit × List Transaction :=
  let rt := recordTypeOf addr
  let z := match zone with
    | some zone => zone
    | none => baseName name
  let delTx := Transaction.deleteRrset name rt addr z
  match env.deleteResp with
  | .error e => (.error e, [delTx])
  | .ok rc =>
    if rc != ResponseCode.NoError then
      (.error ("Response code: " ++ rc.show), [delTx])
    else
      let appTx := Transaction.append name rt addr z ttl
      match env.appendResp with
      | .error e => (.error e, [delTx, appTx])
      | .ok rc2 =>
        if rc2 != ResponseCode.NoError then
          (.error ("Response code: " ++ rc2.show), [delTx, appTx])
        else
          (.ok (), [delTx, appTx])

/-- The zone a transaction is addressed to. -/
def Transaction.zoneOf : Transaction → DnsName
  | .deleteRrset _ _ _ z => z
  | .append _ _ _ z _ => z

/-- `NEVER_TIMEOUT` from the run loop (src/lib.rs line 209), in seconds. -/
def NEVER_TIMEOUT : Nat := 365 * 86400

/-- The interval recomputation at the end of the run loop's timeout branch
(src/lib.rs lines 277-292): starting from the freshly reset `NEVER_TIMEOUT`,
every record with a `next_timeout` shrinks the interval — to `0` when the
timeout is already due, else by `now - state_timeout` (the source's literal,
saturating `Instant` subtraction) when that is smaller. -/
def shrinkInterval (states : List RecordState) (now : Nat) : Nat :=
  states.foldl
    (fun interval st =>
      match next_timeout now st with
      | none => interval
      | some state_timeout =>
        if state_timeout ≤ now then
          0
        else
          let state_interval := now - state_timeout
          if state_interval < interval then state_interval else interval)
    NEVER_TIMEOUT

/-- The interval the spec prescribes for the same spot: the minimum over all
dirty records of the time remaining until `next_timeout` (zero when already
due), `NEVER_TIMEOUT` when none is dirty.  Stated from the spec's words to
compare against `shrinkInterval`. -/
def shrinkIntervalSpec (states : List RecordState) (now : Nat) : Nat :=
  states.foldl
    (fun interval st =>
      match next_timeout now st with
      | none => interval
      | some state_timeout =>
        let remaining := state_timeout - now
        if remaining < interval then remaining else interval)
    NEVER_TIMEOUT

/-- `config::TsigKey` (src/config.rs lines 9-21). -/
structure TsigKey where
  server : IpAddr
  name : String
  alg : String
  secret : Option String
  secret_base64 : Option String
  secret_file : Option String
  secret_file_base64 : Option String
deriving DecidableEq, Repr

/-- `config::Interface` (src/config.rs lines 58-65): a declarative A/AAAA
update task. -/
structure Interface where
  key : String
  name : String
  interface : String
  scope : Option String
  neighbors : Option (List (String × Ipv6Addr))
deriving DecidableEq, Repr

/-- `config::Config` (src/config.rs lines 67-72). -/
structure Config where
  keys : List (String × TsigKey)
  a : Option (List Interface)
  aaaa : Option (List Interface)
deriving DecidableEq, Repr

/-- `config::load` (src/config.rs lines 81-87), with the file read and the
TOML decode as explicit inputs: read the file, decode it, and return the
decoded config; each step's error is propagated, and nothing else is
checked. -/
def load (readFile : Except String String)
    (fromToml : String → Except String Config) : Except String Config := do
  let buf ← readFile
  fromToml buf

/-- `TsigKey::get_secret` (src/config.rs lines 31-55), with file reads and
base64 decoding as explicit inputs (bytes are `List Nat`).  `none` models the
panics: no secret parameter, more than one secret parameter, or a failing
base64 decode. -/
def get_secret (readFileBytes : String → List Nat)
    (b64decode : List Nat → Option (List Nat)) (strBytes : String → List Nat)
    (k : TsigKey) : Option (List Nat) :=
  match k.secret, k.secret_base64, k.secret_file, k.secret_file_base64 with
  | some s, none, none, none => some (strBytes s)
  | none, some sb, none, none => b64decode (strBytes sb)
  | none, none, some f, none => some (readFileBytes f)
  | none, none, none, some f => b64decode (readFileBytes f)
  | none, none, none, none => none
  | _, _, _, _ => none

/-- The TSIG algorithm names the daemon's configuration admits. -/
def validAlgs : List String :=
  ["hmac-sha224", "hmac-sha256", "hmac-sha384", "hmac-sha512"]

/-- `IFA_F_TEMPORARY` from `netlink_packet_route` (= `IFA_F_SECONDARY`). -/
def IFA_F_TEMPORARY : Nat := 1

/-- A netlink address-message attribute, as `src/ifaces.rs` matches them. -/
inductive AddrNla where
  | address (buf : List Nat)
  | flags (f : Nat)
  | other
deriving DecidableEq, Repr

/-- A kernel address message: interface index plus attribute list. -/
structure AddressMessage where
  index : Nat
  nlas : List AddrNla
deriving DecidableEq, Repr

/-- The attribute scan of both address branches of `ifaces::run`
(src/ifaces.rs lines 72-80 and 114-122): the last `Address` and the last
`Flags` attribute, if any. -/
def scanNlas (nlas : List AddrNla) : Option (List Nat) × Option Nat :=
  nlas.foldl
    (fun acc nla =>
      match nla with
      | .address a => (some a, acc.2)
      | .flags f => (acc.1, some f)
      | .other => acc)
    (none, none)

/-- A big-endian byte list as a `Nat`. -/
def bytesToNat (buf : List Nat) : Nat :=
  buf.foldl (fun acc b => acc * 256 + b) 0

/-- `ifaces::buf_to_addr` (src/ifaces.rs lines 143-158): 4 bytes make an
IPv4 address, 16 bytes an IPv6 address, anything else nothing. -/
def buf_to_addr (buf : List Nat) : Option IpAddr :=
  if buf.length = 4 then
    some (.v4 (bytesToNat buf))
  else if buf.length = 16 then
    some (.v6
      { s0 := bytesToNat (buf.take 2), s1 := bytesToNat ((buf.drop 2).take 2),
        s2 := bytesToNat ((buf.drop 4).take 2), s3 := bytesToNat ((buf.drop 6).take 2),
        s4 := bytesToNat ((buf.drop 8).take 2), s5 := bytesToNat ((buf.drop 10).take 2),
        s6 := bytesToNat ((buf.drop 12).take 2), s7 := bytesToNat ((buf.drop 14).take 2) })
  else
    none

/-- The per-message emit decision, identical in the initial-snapshot branch
(src/ifaces.rs lines 66-92) and the live `NewAddress` branch (lines 109-134):
a tuple is emitted only for a known interface, with both an address and a
flags attribute present, the `IFA_F_TEMPORARY` bit clear, and a parseable
address buffer. -/
def emitForAddressMessage (interfaceNames : List (Nat × String))
    (m : AddressMessage) : Option (String × IpAddr) :=
  match interfaceNames.lookup m.index with
  | none => none
  | some name =>
    match scanNlas m.nlas with
    | (some addrBuf, some flags) =>
      if flags &&& IFA_F_TEMPORARY != 0 then
        none
      else
        (buf_to_addr addrBuf).map fun a => (name, a)
    | _ => none

/-- Whether a call trace contains an UPDATE transaction request. -/
def sentUpdate (calls : List DnsCall) : Bool :=
  calls.any fun c =>
    match c with
    | .update _ _ _ _ => true
    | _ => false

/-- The call carries the given zone and ttl, when it is an update at all. -/
def callUsesZoneTtl (z : Option DnsName) (t : Nat) : DnsCall → Prop
  | .update _ _ z2 t2 => z2 = z ∧ t2 = t
  | .query _ _ => True

/-! Concrete inputs used by the witness theorems. -/

/-- `2001:db8:abcd:1::10`, a global-unicast IPv6 address. -/
def addr6A : Ipv6Addr :=
  { s0 := 0x2001, s1 := 0xdb8, s2 := 0xabcd, s3 := 1, s4 := 0, s5 := 0, s6 := 0, s7 := 0x10 }

/-- The neighbor template `::1:0:0:42`. -/
def tmplB : Ipv6Addr :=
  { s0 := 0, s1 := 0, s2 := 0, s3 := 0, s4 := 1, s5 := 0, s6 := 0, s7 := 0x42 }

/-- The default IPv6 scope `2000::/3`. -/
def scope6 : IpCidr := .v6 (0x2000 * 2 ^ 112) 3

/-- The primary record name `self.example`. -/
def nameSelf : DnsName := ["self", "example"]

/-- The neighbor record name `printer.example`. -/
def namePrinter : DnsName := ["printer", "example"]

/-- A dirty IPv6 record with one neighbor, ready for an update attempt. -/
def stW : RecordState :=
  { name := some nameSelf, neighbors := [(namePrinter, tmplB)],
    addr := some (.v6 addr6A), ttl := 300, zone := some ["example"],
    scope := scope6, dirty := true, update_tried := none }

/-- A server on which both the query and the update fail. -/
def envAllFail : DnsEnv :=
  { queryRes := fun _ _ => .error "request timed out",
    updateRes := fun _ _ _ _ => .error "Response code: Server Failure" }

/-- A server that already serves exactly the record's current address. -/
def envNoChange : DnsEnv :=
  { queryRes := fun _ _ => .ok [IpAddr.v6 addr6A],
    updateRes := fun _ _ _ _ => .ok () }

/-- A server with no existing answers whose updates succeed. -/
def envEmptyOk : DnsEnv :=
  { queryRes := fun _ _ => .ok [],
    updateRes := fun _ _ _ _ => .ok () }

/-- The calls `update_addr` makes for the primary record of `stW` when the
query does not return exactly the current address. -/
def callsPrimary : List DnsCall :=
  [.query nameSelf .AAAA,
   .update nameSelf (.v6 addr6A) (some ["example"]) 300]

/-- The full call trace of a successful `update` of `stW` against
`envEmptyOk`: primary first, then the neighbor with the derived address. -/
def callsAllW : List DnsCall :=
  callsPrimary ++
    [.query namePrinter .AAAA,
     .update namePrinter
       (.v6 { s0 := 0x2001, s1 := 0xdb8, s2 := 0xabcd, s3 := 1,
              s4 := 1, s5 := 0, s6 := 0, s7 := 0x42 })
       (some ["example"]) 300]

/-- A dirty record whose last try was at instant 0, for the interval bug. -/
def stC6 : RecordState :=
  { name := some nameSelf, neighbors := [], addr := some (.v6 addr6A),
    ttl := 0, zone := none, scope := scope6, dirty := true, update_tried := some 0 }

/-- A server whose DELETE transaction is answered with SERVFAIL. -/
def uenvDelFail : UpdateEnv :=
  { deleteResp := .ok .ServFail, appendResp := .ok .NoError }

/-- A TSIG key whose algorithm name is not one the daemon supports and which
configures no secret source at all. -/
def demoKey : TsigKey :=
  { server := .v4 0xC6336401, name := "k", alg := "hmac-md5",
    secret := none, secret_base64 := none, secret_file := none,
    secret_file_base64 := none }

/-- A task referencing the key id `missing`, which no key defines. -/
def demoTask : Interface :=
  { key := "missing", name := "host.example.", interface := "eth0",
    scope := none, neighbors := none }

/-- A configuration exhibiting all three conditions the loader is claimed to
reject: unknown algorithm, unreferenced key id, and zero secret sources. -/
def demoConfig : Config :=
  { keys := [("k1", demoKey)], a := some [demoTask], aaaa := none }

/-- The behaviour of `toml::from_str` on a document describing `demoConfig`:
serde's derived `Deserialize` accepts any string in `alg`, never cross-checks
a task's `key` against the `keys` table, and leaves all four secret fields as
optional, so the decode succeeds. -/
def demoDecode : String → Except String Config := fun _ => .ok demoConfig

/-- A kernel address message for a known interface carrying a 16-byte
address and the `IFA_F_TEMPORARY` flag. -/
def msgTemp : AddressMessage :=
  { index := 2, nlas := [.address (List.replicate 16 0), .flags 1] }

/-- C1: `set_address` refuses an out-of-scope or unchanged address and leaves
the state intact; otherwise it stores the address, marks the record dirty and
clears the last-try instant. -/
theorem C1_set_address_spec (st : RecordState) (a : IpAddr) :
    set_address st a =
      if st.scope.contains a ∧ st.addr ≠ some a then
        (true, { st with addr := some a, dirty := true, update_tried := none })
      else
        (false, st) := by
  unfold set_address
  by_cases hscope : st.scope.contains a
  · by_cases haddr : st.addr = some a
    · simp [hscope, haddr]
    · simp [hscope, haddr]
  · simp [hscope]

/-- The guard of `update_addr`'s no-change branch holds exactly for the
singleton answer list `[a]`. -/
lemma singleton_guard_iff (addrs : List IpAddr) (a : IpAddr) :
    (addrs.length == 1 && addrs.head? == some a) = true ↔ addrs = [a] := by
  cases addrs with
  | nil => simp
  | cons x xs =>
    cases xs with
    | nil => simp
    | cons y ys => simp

/-- C2: `update_addr` sends an UPDATE transaction exactly when the preceding
query failed or did not return exactly one answer equal to the address; on a
confirming query it returns success after the query alone. -/
theorem C2_update_addr_query_gate (env : DnsEnv) (st : RecordState)
    (name : DnsName) (addr : IpAddr) :
    (sentUpdate (update_addr env st name addr).2 = true ↔
      env.queryRes name (recordTypeOf addr) ≠ .ok [addr])
    ∧ (env.queryRes name (recordTypeOf addr) = .ok [addr] →
      update_addr env st name addr = (.ok (), [.query name (recordTypeOf addr)])) := by
  constructor
  · cases hq : env.queryRes name (recordTypeOf addr) with
    | error e => simp [update_addr, hq, sentUpdate]
    | ok addrs =>
      by_cases hg : (addrs.length == 1 && addrs.head? == some addr) = true
      · have ha : addrs = [addr] := (singleton_guard_iff addrs addr).mp hg
        subst ha
        simp [update_addr, hq, sentUpdate]
      · have ha : addrs ≠ [addr] := fun h =>
          hg ((singleton_guard_iff addrs addr).mpr h)
        simp [update_addr, hq, hg, sentUpdate, ha]
  · intro hq
    simp [update_addr, hq]

/-- C2 witness: against a server already answering exactly the current
address, no UPDATE is sent and the call succeeds after the query. -/
theorem C2_witness :
    sentUpdate (update_addr envNoChange stW nameSelf (IpAddr.v6 addr6A)).2 = false
    ∧ update_addr envNoChange stW nameSelf (IpAddr.v6 addr6A) =
        (.ok (), [.query nameSelf .AAAA]) :=
  ⟨rfl, (C2_update_addr_query_gate envNoChange stW nameSelf (IpAddr.v6 addr6A)).2 rfl⟩

/-- C6: the interval recomputation at an instant 30 s after a failed try.
`next_timeout` is due in another 30 s, and the spec's minimum-remaining-time
rule yields 30, but the run loop's reversed, saturating subtraction
`now - state_timeout` makes the interval 0, so the loop wakes immediately and
spins until the retry is due. -/
theorem C6_interval_eval :
    next_timeout 30 stC6 = some 60
    ∧ shrinkInterval [stC6] 30 = 0
    ∧ shrinkIntervalSpec [stC6] 30 = 30 :=
  ⟨rfl, rfl, rfl⟩

/-- C8 counterexample: `load` succeeds on a decodable configuration whose
only key has the unsupported algorithm `hmac-md5` and no secret source and
whose only task references an undefined key id — none of the three conditions
yields a `ConfigError`. -/
theorem C8_counterexample :
    load (Except.ok "keys.k1 ...") demoDecode = Except.ok demoConfig
    ∧ validAlgs.contains demoKey.alg = false
    ∧ demoConfig.keys.lookup demoTask.key = none
    ∧ demoKey.secret = none ∧ demoKey.secret_base64 = none
    ∧ demoKey.secret_file = none ∧ demoKey.secret_file_base64 = none :=
  ⟨rfl, by decide, by decide, rfl, rfl, rfl, rfl⟩

/-- C8 (amended): `load` returns `Err` exactly for the I/O failure and the
decode failure, which it propagates, and otherwise returns the decoded
configuration with no further validation; the secret-source rule lives in
`TsigKey::get_secret`, which panics (modelled `none`) on zero sources or on
more than one. -/
theorem C8_load_amended (rf : Except String String)
    (dec : String → Except String Config) :
    (∀ e, rf = .error e → load rf dec = .error e)
    ∧ (∀ s, rf = .ok s → load rf dec = dec s)
    ∧ (∀ rfb b64 sb (k : TsigKey), k.secret = none → k.secret_base64 = none →
        k.secret_file = none → k.secret_file_base64 = none →
        get_secret rfb b64 sb k = none)
    ∧ (∀ rfb b64 sb (k : TsigKey) s1 s2, k.secret = some s1 →
        k.secret_base64 = some s2 → get_secret rfb b64 sb k = none) := by
  refine ⟨?_, ?_, ?_, ?_⟩
  · intro e he
    rw [he]
    rfl
  · intro s hs
    rw [hs]
    rfl
  · intro rfb b64 sb k h1 h2 h3 h4
    unfold get_secret
    rw [h1, h2, h3, h4]
  · intro rfb b64 sb k s1 s2 h1 h2
    unfold get_secret
    rw [h1, h2]

/-- C8 witness for the amended statement: a successful read hands the buffer
to the decoder, and `demoKey` (no secret source) makes `get_secret` panic. -/
theorem C8_load_amended_witness :
    load (Except.ok "doc") demoDecode = demoDecode "doc"
    ∧ get_secret (fun _ => []) (fun _ => none) (fun _ => []) demoKey = none :=
  ⟨(C8_load_amended (Except.ok "doc") demoDecode).2.1 "doc" rfl,
    (C8_load_amended (Except.ok "doc") demoDecode).2.2.1
      (fun _ => []) (fun _ => none) (fun _ => []) demoKey rfl rfl rfl rfl⟩

/-- C9: a kernel address message whose flags attribute has the
`IFA_F_TEMPORARY` bit set is never emitted, in either the initial-snapshot or
the live branch, so it reaches no `RecordState`. -/
theorem C9_temp_filter (names : List (Nat × String)) (m : AddressMessage)
    (f : Nat) (hf : (scanNlas m.nlas).2 = some f)
    (htemp : f &&& IFA_F_TEMPORARY ≠ 0) :
    emitForAddressMessage names m = none := by
  unfold emitForAddressMessage
  cases hn : names.lookup m.index with
  | none => rfl
  | some name =>
    rcases hs : scanNlas m.nlas with ⟨o1, o2⟩
    rw [hs] at hf
    simp only at hf
    subst hf
    cases o1 with
    | none => rfl
    | some buf =>
      have hb : (f &&& IFA_F_TEMPORARY != 0) = true := by
        simpa using htemp
      simp [hb]

/-- C9 witness: a temporary-flagged 16-byte address on a known interface is
not emitted. -/
theorem C9_witness : emitForAddressMessage [(2, "eth0")] msgTemp = none :=
  C9_temp_filter [(2, "eth0")] msgTemp 1 rfl (by decide)

/-- Reduction of `RecordState.update` when the primary `update_addr` errors:
the record is re-dirtied and only the primary calls were made. -/
lemma update_primary_error (env : DnsEnv) (st : RecordState) (now : Nat)
    (a : IpAddr) (n : DnsName) (e : String) (calls : List DnsCall)
    (ha : st.addr = some a) (hn : st.name = some n)
    (hfail : update_addr env (postTry st now) n a = (.error e, calls)) :
    RecordState.update env now st =
      some ({ postTry st now with dirty := true }, calls) := by
  have hn1 : (postTry st now).name = some n := by simp [postTry, hn]
  simp only [RecordState.update, ha, hn1, hfail]

/-- Reduction of `RecordState.update` (IPv6, primary succeeded): the neighbor
loop appends its calls and the cleared state is returned. -/
lemma update_primary_ok_v6 (env : DnsEnv) (st : RecordState) (now : Nat)
    (p : Ipv6Addr) (n : DnsName) (calls : List DnsCall)
    (ha : st.addr = some (.v6 p)) (hn : st.name = some n)
    (hok : update_addr env (postTry st now) n (.v6 p) = (.ok (), calls)) :
    RecordState.update env now st =
      some (postTry st now, calls ++ neighborCalls env (postTry st now) p) := by
  have hn1 : (postTry st now).name = some n := by simp [postTry, hn]
  simp only [RecordState.update, ha, hn1, hok]

/-- Reduction of `RecordState.update` (IPv4, primary succeeded): no neighbor
loop runs. -/
lemma update_primary_ok_v4 (env : DnsEnv) (st : RecordState) (now : Nat)
    (b : Nat) (n : DnsName) (calls : List DnsCall)
    (ha : st.addr = some (.v4 b)) (hn : st.name = some n)
    (hok : update_addr env (postTry st now) n (.v4 b) = (.ok (), calls)) :
    RecordState.update env now st = some (postTry st now, calls) := by
  have hn1 : (postTry st now).name = some n := by simp [postTry, hn]
  simp only [RecordState.update, ha, hn1, hok]

/-- Reduction of `RecordState.update` for a neighbor-only IPv6 task. -/
lemma update_noname_v6 (env : DnsEnv) (st : RecordState) (now : Nat)
    (p : Ipv6Addr) (ha : st.addr = some (.v6 p)) (hn : st.name = none) :
    RecordState.update env now st =
      some (postTry st now, neighborCalls env (postTry st now) p) := by
  have hn1 : (postTry st now).name = none := by simp [postTry, hn]
  simp only [RecordState.update, ha, hn1]

/-- Reduction of `RecordState.update` for a nameless IPv4 task. -/
lemma update_noname_v4 (env : DnsEnv) (st : RecordState) (now : Nat)
    (b : Nat) (ha : st.addr = some (.v4 b)) (hn : st.name = none) :
    RecordState.update env now st = some (postTry st now, []) := by
  have hn1 : (postTry st now).name = none := by simp [postTry, hn]
  simp only [RecordState.update, ha, hn1]

/-- C3: a failing primary `update_addr` re-dirties the record and returns
before any neighbor call; when the primary succeeds, the remaining (neighbor)
calls cannot change the cleared `dirty` flag, whatever they return. -/
theorem C3_update_error_policy (env : DnsEnv) (st : RecordState) (now : Nat)
    (a : IpAddr) (n : DnsName) (ha : st.addr = some a) (hn : st.name = some n) :
    (∀ e calls, update_addr env (postTry st now) n a = (.error e, calls) →
      RecordState.update env now st = some ({ postTry st now with dirty := true }, calls))
    ∧ (∀ calls, update_addr env (postTry st now) n a = (.ok (), calls) →
      ∃ extra, RecordState.update env now st = some (postTry st now, calls ++ extra)
        ∧ (postTry st now).dirty = false) := by
  constructor
  · intro e calls h
    exact update_primary_error env st now a n e calls ha hn h
  · intro calls h
    cases a with
    | v6 cur =>
      exact ⟨neighborCalls env (postTry st now) cur,
        update_primary_ok_v6 env st now cur n calls ha hn h, rfl⟩
    | v4 b =>
      refine ⟨[], ?_, rfl⟩
      rw [List.append_nil]
      exact update_primary_ok_v4 env st now b n calls ha hn h

/-- C3 witness: with both query and update failing, the update of `stW` stops
after the primary calls with the record re-dirtied. -/
theorem C3_witness :
    RecordState.update envAllFail 5 stW =
      some ({ postTry stW 5 with dirty := true }, callsPrimary) :=
  (C3_update_error_policy envAllFail stW 5 (IpAddr.v6 addr6A) nameSelf rfl rfl).1
    "Response code: Server Failure" callsPrimary rfl

/-- C4: after an `update` whose primary `update_addr` failed, the record is
dirty with `update_tried` stamped at the attempt, and `can_update` is false
strictly before `update_tried + RETRY_INTERVAL` and true from then on. -/
theorem C4_retry_schedule (env : DnsEnv) (st : RecordState) (now : Nat)
    (a : IpAddr) (n : DnsName) (e : String) (calls : List DnsCall)
    (ha : st.addr = some a) (hn : st.name = some n)
    (hfail : update_addr env (postTry st now) n a = (.error e, calls)) :
    ∃ st1, RecordState.update env now st = some (st1, calls)
      ∧ st1.dirty = true ∧ st1.update_tried = some now
      ∧ (∀ t, t < now + RETRY_INTERVAL → can_update t st1 = false)
      ∧ (∀ t, now + RETRY_INTERVAL ≤ t → can_update t st1 = true) := by
  refine ⟨{ postTry st now with dirty := true }, ?_, rfl, rfl, ?_, ?_⟩
  · exact update_primary_error env st now a n e calls ha hn hfail
  · intro t htl
    simp only [can_update, postTry]
    simp
    omega
  · intro t htl
    simp only [can_update, postTry]
    simp
    omega

/-- C4 witness: a failed attempt at instant 5 blocks retries up to instant 64
and allows one at 65 (= 5 + 60). -/
theorem C4_witness :
    ∃ st1, RecordState.update envAllFail 5 stW = some (st1, callsPrimary)
      ∧ st1.dirty = true ∧ st1.update_tried = some 5
      ∧ can_update 64 st1 = false ∧ can_update 65 st1 = true := by
  obtain ⟨st1, h1, h2, h3, h4, h5⟩ :=
    C4_retry_schedule envAllFail stW 5 (IpAddr.v6 addr6A) nameSelf
      "Response code: Server Failure" callsPrimary rfl rfl rfl
  exact ⟨st1, h1, h2, h3, h4 64 (by decide), h5 65 (by decide)⟩

/-- C5: when the neighbor loop runs (no primary name, or the primary call
succeeded) on an IPv6 address `p`, every neighbor is updated at the address
made of `p`'s first four segments followed by the template's last four. -/
theorem C5_neighbor_derivation (env : DnsEnv) (st : RecordState) (now : Nat)
    (p : Ipv6Addr) (ha : st.addr = some (.v6 p))
    (hready : st.name = none ∨ ∃ n calls, st.name = some n ∧
      update_addr env (postTry st now) n (.v6 p) = (.ok (), calls)) :
    ∃ pre, RecordState.update env now st =
      some (postTry st now, pre ++ st.neighbors.flatMap fun nb =>
        (update_addr env (postTry st now) nb.1
          (.v6 { s0 := p.s0, s1 := p.s1, s2 := p.s2, s3 := p.s3,
                 s4 := nb.2.s4, s5 := nb.2.s5, s6 := nb.2.s6,
                 s7 := nb.2.s7 })).2) := by
  have hflat : neighborCalls env (postTry st now) p =
      st.neighbors.flatMap fun nb =>
        (update_addr env (postTry st now) nb.1
          (.v6 { s0 := p.s0, s1 := p.s1, s2 := p.s2, s3 := p.s3,
                 s4 := nb.2.s4, s5 := nb.2.s5, s6 := nb.2.s6,
                 s7 := nb.2.s7 })).2 := by
    simp [neighborCalls, mkNeighborAddr, postTry]
  rcases hready with hnone | ⟨n, calls, hn, hok⟩
  · refine ⟨[], ?_⟩
    rw [update_noname_v6 env st now p ha hnone, hflat, List.nil_append]
  · refine ⟨calls, ?_⟩
    rw [update_primary_ok_v6 env st now p n calls ha hn hok, hflat]

/-- C5 witness: updating `stW` (current address `2001:db8:abcd:1::10`,
neighbor template `::1:0:0:42`) derives the neighbor trace from the spliced
addresses. -/
theorem C5_witness :
    ∃ pre, RecordState.update envEmptyOk 5 stW =
      some (postTry stW 5, pre ++ stW.neighbors.flatMap fun nb =>
        (update_addr envEmptyOk (postTry stW 5) nb.1
          (.v6 { s0 := addr6A.s0, s1 := addr6A.s1, s2 := addr6A.s2,
                 s3 := addr6A.s3, s4 := nb.2.s4, s5 := nb.2.s5,
                 s6 := nb.2.s6, s7 := nb.2.s7 })).2) :=
  C5_neighbor_derivation envEmptyOk stW 5 addr6A rfl
    (Or.inr ⟨nameSelf, callsPrimary, rfl, rfl⟩)

/-- C7: `Server::update` sends the DELETE first, addressed to the given zone
or to the name's parent; a transport error or non-NoError code there aborts
with an error and no APPEND; otherwise exactly the two transactions are sent,
and the call succeeds precisely when the APPEND is answered NoError. -/
theorem C7_server_update (env : UpdateEnv) (name : DnsName) (addr : IpAddr)
    (zone : Option DnsName) (ttl : Nat) :
    (∀ e, env.deleteResp = .error e →
      serverUpdate env name addr zone ttl =
        (.error e,
         [.deleteRrset name (recordTypeOf addr) addr (zone.getD (baseName name))]))
    ∧ (∀ rc, env.deleteResp = .ok rc → rc ≠ .NoError →
      serverUpdate env name addr zone ttl =
        (.error ("Response code: " ++ rc.show),
         [.deleteRrset name (recordTypeOf addr) addr (zone.getD (baseName name))]))
    ∧ (env.deleteResp = .ok .NoError →
      (serverUpdate env name addr zone ttl).2 =
        [.deleteRrset name (recordTypeOf addr) addr (zone.getD (baseName name)),
         .append name (recordTypeOf addr) addr (zone.getD (baseName name)) ttl]
      ∧ ((serverUpdate env name addr zone ttl).1 = .ok () ↔
         env.appendResp = .ok .NoError)) := by
  have hz : (match zone with | some z => z | none => baseName name) =
      zone.getD (baseName name) := by
    cases zone <;> rfl
  refine ⟨?_, ?_, ?_⟩
  · intro e he
    simp [serverUpdate, he, hz]
  · intro rc hrc hne
    simp [serverUpdate, hrc, hne, hz]
  · intro hd
    constructor
    · cases hap : env.appendResp with
      | error e => simp [serverUpdate, hd, hap, hz]
      | ok rc2 =>
        by_cases h2 : rc2 = .NoError <;> simp [serverUpdate, hd, hap, h2, hz]
    · cases hap : env.appendResp with
      | error e => simp [serverUpdate, hd, hap, hz]
      | ok rc2 =>
        by_cases h2 : rc2 = .NoError
        · subst h2
          simp [serverUpdate, hd, hap, hz]
        · simp [serverUpdate, hd, hap, h2, hz]

/-- C7 witness: a SERVFAIL answer to the DELETE yields an error after that
single transaction, addressed to the parent of the name since no zone was
given. -/
theorem C7_witness :
    serverUpdate uenvDelFail ["host", "example"] (IpAddr.v4 5) none 0 =
      (.error ("Response code: " ++ ResponseCode.ServFail.show),
       [.deleteRrset ["host", "example"] .A (IpAddr.v4 5) ["example"]]) :=
  (C7_server_update uenvDelFail ["host", "example"] (IpAddr.v4 5) none 0).2.1
    .ServFail rfl (by decide)

/-- Every call `update_addr` issues carries the record's own zone and ttl. -/
lemma update_addr_calls_zone_ttl (env : DnsEnv) (st : RecordState)
    (n : DnsName) (a : IpAddr) (c : DnsCall)
    (hc : c ∈ (update_addr env st n a).2) :
    callUsesZoneTtl st.zone st.ttl c := by
  simp only [update_addr] at hc
  cases hq : env.queryRes n (recordTypeOf a) with
  | error e =>
    rw [hq] at hc
    simp at hc
    rcases hc with h | h <;> subst h <;> simp [callUsesZoneTtl]
  | ok addrs =>
    rw [hq] at hc
    by_cases hg : (addrs.length == 1 && addrs.head? == some a) = true
    · simp [hg] at hc
      subst hc
      simp [callUsesZoneTtl]
    · simp [hg] at hc
      rcases hc with h | h <;> subst h <;> simp [callUsesZoneTtl]

/-- Every call of the neighbor loop carries the record's zone and ttl. -/
lemma neighborCalls_zone_ttl (env : DnsEnv) (st : RecordState)
    (cur : Ipv6Addr) (c : DnsCall) (hc : c ∈ neighborCalls env st cur) :
    callUsesZoneTtl st.zone st.ttl c := by
  simp only [neighborCalls, List.mem_flatMap] at hc
  rcases hc with ⟨nb, _, hmem⟩
  exact update_addr_calls_zone_ttl env st nb.1 _ c hmem

/-- Every transaction of `Server::update` is addressed to the given zone, or
to the name's parent when no zone is given. -/
lemma serverUpdate_tx_zone (uenv : UpdateEnv) (n : DnsName) (a : IpAddr)
    (zo : Option DnsName) (t : Nat) (tx : Transaction)
    (htx : tx ∈ (serverUpdate uenv n a zo t).2) :
    tx.zoneOf = zo.getD (baseName n) := by
  cases zo with
  | none =>
    simp only [serverUpdate, Option.getD] at htx ⊢
    cases hd : uenv.deleteResp with
    | error e =>
      rw [hd] at htx
      simp at htx
      subst htx
      rfl
    | ok rc =>
      rw [hd] at htx
      by_cases hrc : rc = ResponseCode.NoError
      · subst hrc
        simp at htx
        cases hap : uenv.appendResp with
        | error e2 =>
          rw [hap] at htx
          simp at htx
          rcases htx with h | h <;> subst h <;> rfl
        | ok rc2 =>
          rw [hap] at htx
          by_cases h2 : rc2 = ResponseCode.NoError
          · subst h2
            simp at htx
            rcases htx with h | h <;> subst h <;> rfl
          · simp [h2] at htx
            rcases htx with h | h <;> subst h <;> rfl
      · simp [hrc] at htx
        subst htx
        rfl
  | some zz =>
    simp only [serverUpdate, Option.getD] at htx ⊢
    cases hd : uenv.deleteResp with
    | error e =>
      rw [hd] at htx
      simp at htx
      subst htx
      rfl
    | ok rc =>
      rw [hd] at htx
      by_cases hrc : rc = ResponseCode.NoError
      · subst hrc
        simp at htx
        cases hap : uenv.appendResp with
        | error e2 =>
          rw [hap] at htx
          simp at htx
          rcases htx with h | h <;> subst h <;> rfl
        | ok rc2 =>
          rw [hap] at htx
          by_cases h2 : rc2 = ResponseCode.NoError
          · subst h2
            simp at htx
            rcases htx with h | h <;> subst h <;> rfl
          · simp [h2] at htx
            rcases htx with h | h <;> subst h <;> rfl
      · simp [hrc] at htx
        subst htx
        rfl

/-- C10: every server call `RecordState.update` makes — the primary's and
every neighbor's — carries the record's configured `zone` and `ttl`
unchanged; and inside `Server::update` a present zone is used as given while
an absent one is derived as the parent of the updated name itself. -/
theorem C10_zone_ttl_propagation (env : DnsEnv) (st : RecordState) (now : Nat) :
    (∀ res calls, RecordState.update env now st = some (res, calls) →
      ∀ c ∈ calls, callUsesZoneTtl st.zone st.ttl c)
    ∧ (∀ (uenv : UpdateEnv) (n : DnsName) (a : IpAddr) (t : Nat) (z : DnsName),
        ∀ tx ∈ (serverUpdate uenv n a (some z) t).2, tx.zoneOf = z)
    ∧ (∀ (uenv : UpdateEnv) (n : DnsName) (a : IpAddr) (t : Nat),
        ∀ tx ∈ (serverUpdate uenv n a none t).2, tx.zoneOf = baseName n) := by
  have hz : (postTry st now).zone = st.zone := rfl
  have ht : (postTry st now).ttl = st.ttl := rfl
  refine ⟨?_, ?_, ?_⟩
  · intro res calls hupd c hc
    cases haddr : st.addr with
    | none => simp [RecordState.update, haddr] at hupd
    | some a =>
      cases hname : st.name with
      | some nm =>
        rcases hua : update_addr env (postTry st now) nm a with ⟨r, cs⟩
        have hsnd : (update_addr env (postTry st now) nm a).2 = cs := by rw [hua]
        cases r with
        | error e =>
          rw [update_primary_error env st now a nm e cs haddr hname hua] at hupd
          obtain ⟨-, hcalls⟩ := Option.some.inj hupd |> Prod.mk.inj
          subst hcalls
          have hm : c ∈ (update_addr env (postTry st now) nm a).2 := by
            rw [hsnd]; exact hc
          have := update_addr_calls_zone_ttl env (postTry st now) nm a c hm
          rwa [hz, ht] at this
        | ok u =>
          cases u
          cases a with
          | v6 cur =>
            rw [update_primary_ok_v6 env st now cur nm cs haddr hname hua] at hupd
            obtain ⟨-, hcalls⟩ := Option.some.inj hupd |> Prod.mk.inj
            subst hcalls
            rcases List.mem_append.mp hc with hmem | hmem
            · have hm : c ∈ (update_addr env (postTry st now) nm (.v6 cur)).2 := by
                rw [hsnd]; exact hmem
              have := update_addr_calls_zone_ttl env (postTry st now) nm _ c hm
              rwa [hz, ht] at this
            · have := neighborCalls_zone_ttl env (postTry st now) cur c hmem
              rwa [hz, ht] at this
          | v4 b =>
            rw [update_primary_ok_v4 env st now b nm cs haddr hname hua] at hupd
            obtain ⟨-, hcalls⟩ := Option.some.inj hupd |> Prod.mk.inj
            subst hcalls
            have hm : c ∈ (update_addr env (postTry st now) nm (.v4 b)).2 := by
              rw [hsnd]; exact hc
            have := update_addr_calls_zone_ttl env (postTry st now) nm _ c hm
            rwa [hz, ht] at this
      | none =>
        cases a with
        | v6 cur =>
          rw [update_noname_v6 env st now cur haddr hname] at hupd
          obtain ⟨-, hcalls⟩ := Option.some.inj hupd |> Prod.mk.inj
          subst hcalls
          have := neighborCalls_zone_ttl env (postTry st now) cur c hc
          rwa [hz, ht] at this
        | v4 b =>
          rw [update_noname_v4 env st now b haddr hname] at hupd
          obtain ⟨-, hcalls⟩ := Option.some.inj hupd |> Prod.mk.inj
          subst hcalls
          simp at hc
  · intro uenv n a t z tx htx
    simpa using serverUpdate_tx_zone uenv n a (some z) t tx htx
  · intro uenv n a t tx htx
    simpa using serverUpdate_tx_zone uenv n a none t tx htx

/-- C10 witness: in the successful update of `stW`, the primary UPDATE call
carries the configured zone `example` and ttl 300. -/
theorem C10_witness :
    callUsesZoneTtl stW.zone stW.ttl
      (DnsCall.update nameSelf (IpAddr.v6 addr6A) (some ["example"]) 300) :=
  (C10_zone_ttl_propagation envEmptyOk stW 5).1 (postTry stW 5) callsAllW rfl
    (DnsCall.update nameSelf (IpAddr.v6 addr6A) (some ["example"]) 300) (by decide)
